import Mathlib

/-!
Verification of the market-data bridge of Alpha_V1
(src/electron/src/main/PolygonBridge.js and src/electron/src/main/IPCHandler.js)
against its natural-language specification.

The JavaScript is shallowly embedded: the `Map` objects become association
lists, the event-emitter side effects become explicit lists of emitted events
and sent frames, and the `setTimeout` reconnection callbacks become explicit
`PendingRetry` values that a separate `fireRetry` function executes.
-/

namespace Alpha

/-- Lookup in a JS `Map` modelled as an association list: `map.get(k)`. -/
def alistGet {α : Type} (m : List (String × α)) (k : String) : Option α :=
  (m.find? (fun p => p.1 = k)).map Prod.snd

/-- Update in a JS `Map` modelled as an association list: `map.set(k, v)`.
`Map.set` overwrites in place when the key exists and appends otherwise. -/
def alistSet {α : Type} (m : List (String × α)) (k : String) (v : α) :
    List (String × α) :=
  match m with
  | [] => [(k, v)]
  | p :: rest => if p.1 = k then (k, v) :: rest else p :: alistSet rest k v

/-- A live subscription as stored by `handleDataSubscribe`
(PolygonBridge.js lines 320-326): `{ clientId, windowId, stream, symbols }`.
The unused `options` payload is omitted. -/
structure Subscription where
  clientId : String
  windowId : String
  stream : String
  symbols : List String
deriving Repr, DecidableEq

/-- An outbound wire frame. `subscribe` frames carry symbols and channels
(lines 311-315); `unsubscribe` frames carry only symbols (lines 362-365). -/
inductive Frame where
  | subscribe (symbols : List String) (channels : List String)
  | unsubscribe (symbols : List String)
deriving Repr, DecidableEq

/-- One item of a market-data payload; only the `symbol` field is inspected
by the routing code. `none` models an absent `symbol` property. -/
structure MarketItem where
  symbol : Option String
deriving Repr, DecidableEq

/-- The `data` field of an inbound `market_data` message: either a single
object or a batched array of items (PolygonBridge.js lines 512-526). -/
inductive MarketData where
  | single (item : MarketItem)
  | batch (items : List MarketItem)
deriving Repr, DecidableEq

/-- A `market-data` fan-out event as emitted by `forwardMarketData`
(lines 499-504). -/
structure MarketDataEvent where
  windowId : String
  subscriptionId : String
  stream : String
  data : MarketData
deriving Repr, DecidableEq

/-- Non-fan-out events emitted by the bridge. -/
inductive BridgeEvent where
  | subscriptionCreated (subscriptionId : String) (windowId : String)
      (symbols : List String)
  | subscriptionError (subscriptionId : String) (error : String)
deriving Repr, DecidableEq

/-- Result of one `createWebSocketConnection` attempt: the socket either
reaches `open` or errors/times out. -/
inductive OpenResult where
  | success
  | failure (msg : String)
deriving Repr, DecidableEq

/-- A reconnection retry scheduled by the `setTimeout` at PolygonBridge.js
line 556: the closure captures `clientId`, the `activeSubscriptions` list
computed at lines 533-534, and the backoff delay. -/
structure PendingRetry where
  clientId : String
  captured : List Subscription
  delay : Nat
deriving Repr, DecidableEq

/-- The mutable state of a `PolygonBridge` instance:
`wsConnections` (clientId to socket; the Bool is `readyState === OPEN`),
`subscriptions` (subscriptionId to Subscription),
`reconnectAttempts` (clientId to attempt count), and the set of scheduled
but not yet fired reconnection timers. -/
structure BridgeState where
  wsConnections : List (String × Bool)
  subscriptions : List (String × Subscription)
  reconnectAttempts : List (String × Nat)
  pendingRetries : List PendingRetry
deriving Repr, DecidableEq

/-- Observable outcome of one bridge operation: the successor state, the
frames sent on sockets, the events emitted to the UI layer, the clientIds
whose socket had `close()` called, and whether a socket open was attempted. -/
structure StepOutcome where
  state : BridgeState
  frames : List Frame := []
  events : List BridgeEvent := []
  closedClients : List String := []
  openAttempted : Bool := false
deriving Repr, DecidableEq

/-- Reconnection configuration (constructor lines 30-31):
`reconnectInterval` and `maxReconnectAttempts`. -/
structure SupervisorConfig where
  reconnectInterval : Nat
  maxReconnectAttempts : Nat
deriving Repr, DecidableEq

/-- `options.reconnectInterval || 5000` (line 30); JS `||` also replaces a
falsy `0`. -/
def resolveReconnectInterval : Option Nat → Nat
  | none => 5000
  | some v => if v = 0 then 5000 else v

/-- `options.maxReconnectAttempts || 10` (line 31). -/
def resolveMaxReconnectAttempts : Option Nat → Nat
  | none => 10
  | some v => if v = 0 then 10 else v

/-- `mapStreamToChannels` (lines 585-594): fixed table with `['T']` as the
fallback for unknown streams. -/
def mapStreamToChannels (stream : String) : List String :=
  if stream = "trades" then ["T"]
  else if stream = "quotes" then ["Q"]
  else if stream = "bars" then ["A", "AM"]
  else if stream = "updates" then ["T", "Q", "A"]
  else ["T"]

/-- JS truthiness of an optional string property: `undefined` and the empty
string are falsy (`data.symbol && ...` at lines 516 and 522). -/
def truthyString : Option String → Option String
  | none => none
  | some s => if s = "" then none else some s

/-- `dataMatchesSubscription` (lines 512-526): a single payload matches when
its (truthy) `symbol` is in the subscription's symbol list; a batched array
has no `symbol` property of its own and matches when some item's `symbol`
is included; anything else returns false. -/
def dataMatchesSubscription (data : MarketData) (sub : Subscription) : Bool :=
  match data with
  | .single item =>
      match truthyString item.symbol with
      | some s => sub.symbols.contains s
      | none => false
  | .batch items =>
      items.any fun item =>
        match truthyString item.symbol with
        | some s => sub.symbols.contains s
        | none => false

/-- `forwardMarketData` (lines 487-507): filter the subscription entries to
those with this `clientId`, then emit one `market-data` event per entry that
matches the payload, in registry order. -/
def forwardMarketData (subscriptions : List (String × Subscription))
    (clientId : String) (data : MarketData) : List MarketDataEvent :=
  (subscriptions.filter fun p => p.2.clientId = clientId).filterMap fun p =>
    if dataMatchesSubscription data p.2 then
      some ⟨p.2.windowId, p.1, p.2.stream, data⟩
    else none

/-- `Array.from(this.subscriptions.values()).filter(sub => sub.clientId ===
clientId)` (lines 533-534 and 374-375). -/
def activeSubscriptionsFor (subscriptions : List (String × Subscription))
    (clientId : String) : List Subscription :=
  (subscriptions.map Prod.snd).filter fun s => s.clientId = clientId

/-- What one invocation of `handleWebSocketReconnection` decides to do. -/
inductive ReconnectAction where
  | skip
  | emitFailed (clientId : String) (attempts : Nat)
  | scheduleRetry (clientId : String) (delay : Nat)
      (captured : List Subscription)
deriving Repr, DecidableEq

/-- One invocation of `handleWebSocketReconnection` (lines 531-554): return
unchanged when no subscription references the clientId; otherwise increment
and store the attempt counter; past `maxReconnectAttempts` emit the terminal
`reconnection-failed` event, else schedule a retry after
`Math.min(reconnectInterval * attempts, 30000)` ms, capturing the active
subscriptions. -/
def reconnectStep (cfg : SupervisorConfig)
    (subscriptions : List (String × Subscription))
    (attemptsMap : List (String × Nat)) (clientId : String) :
    List (String × Nat) × ReconnectAction :=
  let active := activeSubscriptionsFor subscriptions clientId
  if active.isEmpty then
    (attemptsMap, .skip)
  else
    let attempts := (alistGet attemptsMap clientId).getD 0 + 1
    let m' := alistSet attemptsMap clientId attempts
    if cfg.maxReconnectAttempts < attempts then
      (m', .emitFailed clientId attempts)
    else
      (m', .scheduleRetry clientId
        (min (cfg.reconnectInterval * attempts) 30000) active)

/-- State of the reconnection cascade for one clientKey: the shared attempt
counter map, the number of retry timers currently scheduled and not yet
fired for that key, and the attempts values carried by the
`reconnection-failed` events emitted so far, in emission order. -/
structure CascadeState where
  attemptsMap : List (String × Nat)
  liveTimers : Nat
  emitted : List Nat
deriving Repr, DecidableEq

/-- One invocation of `handleWebSocketReconnection`, interpreted on the
cascade state: a `scheduleRetry` outcome adds one live timer, an
`emitFailed` outcome records the emitted attempts value, a `skip` outcome
only returns the (unchanged) attempts map. -/
def superviseOnce (cfg : SupervisorConfig)
    (subs : List (String × Subscription)) (cid : String)
    (st : CascadeState) : CascadeState :=
  match reconnectStep cfg subs st.attemptsMap cid with
  | (m', ReconnectAction.skip) => { st with attemptsMap := m' }
  | (m', ReconnectAction.emitFailed _ a) =>
      { st with attemptsMap := m', emitted := st.emitted ++ [a] }
  | (m', ReconnectAction.scheduleRetry _ _ _) =>
      { st with attemptsMap := m', liveTimers := st.liveTimers + 1 }

/-- One live retry timer fires and its reopen fails. The ws client emits
`error` followed by `close` on a failed connect (the 5s-timeout path calls
`ws.close()` during CONNECTING and likewise ends in `close`), so the
supervisor is invoked twice per failed reopen: once by the socket close
handler (PolygonBridge.js lines 435-441) and once by the promise catch
(line 577). The two invocations commute on this state, so their order is
immaterial here. -/
def failedAttemptFires (cfg : SupervisorConfig)
    (subs : List (String × Subscription)) (cid : String)
    (st : CascadeState) : CascadeState :=
  superviseOnce cfg subs cid (superviseOnce cfg subs cid
    { st with liveTimers := st.liveTimers - 1 })

/-- Run the cascade with every reopen failing, firing timers until none
remains. The fuel bounds the recursion; a run ending with no live timer is
complete. -/
def runCascade (cfg : SupervisorConfig)
    (subs : List (String × Subscription)) (cid : String) :
    Nat → CascadeState → CascadeState
  | 0, st => st
  | fuel + 1, st =>
      if st.liveTimers = 0 then st
      else runCascade cfg subs cid fuel (failedAttemptFires cfg subs cid st)

/-- The whole all-failures scenario: an unexpected close of an established
socket invokes the supervisor once (only the close handler fires there),
then every scheduled reopen fails until no timer remains. -/
def cascadeFromClose (cfg : SupervisorConfig)
    (subs : List (String × Subscription)) (cid : String)
    (m0 : List (String × Nat)) (fuel : Nat) : CascadeState :=
  runCascade cfg subs cid fuel (superviseOnce cfg subs cid ⟨m0, 0, []⟩)

/-- `handleDataSubscribe` (lines 297-342). `clientId` is derived from the
window (line 302). When the map holds a socket in state OPEN it is reused;
otherwise `createWebSocketConnection` is awaited, whose outcome is the
`openResult` argument (on success the open handler stores the socket and
deletes the reconnect counter, lines 404-414). With a usable socket, a
subscribe frame is sent, the Subscription is recorded, and
`subscription-created` is emitted; if the open fails the catch block emits
`subscription-error` and nothing else happens. -/
def handleDataSubscribe (st : BridgeState) (subscriptionId windowId stream : String)
    (symbols : List String) (openResult : OpenResult) : StepOutcome :=
  let clientId := "window-" ++ windowId
  let sub : Subscription := ⟨clientId, windowId, stream, symbols⟩
  match alistGet st.wsConnections clientId with
  | some true =>
      { state := { st with
          subscriptions := alistSet st.subscriptions subscriptionId sub },
        frames := [Frame.subscribe symbols (mapStreamToChannels stream)],
        events := [.subscriptionCreated subscriptionId windowId symbols] }
  | _ =>
      match openResult with
      | .success =>
          { state := { st with
              wsConnections := alistSet st.wsConnections clientId true,
              reconnectAttempts :=
                st.reconnectAttempts.eraseP (fun p => p.1 = clientId),
              subscriptions := alistSet st.subscriptions subscriptionId sub },
            frames := [Frame.subscribe symbols (mapStreamToChannels stream)],
            events := [.subscriptionCreated subscriptionId windowId symbols],
            openAttempted := true }
      | .failure msg =>
          { state := st,
            events := [.subscriptionError subscriptionId msg],
            openAttempted := true }

/-- `handleDataUnsubscribe` (lines 347-385). An unknown subscriptionId
returns immediately. Otherwise: send an unsubscribe frame when the client's
socket exists and is OPEN, delete the subscription, and when no remaining
subscription shares the clientId and a socket object exists, close it and
drop it from the map. Nothing here touches `reconnectAttempts` or any
scheduled reconnection timer. -/
def handleDataUnsubscribe (st : BridgeState) (subscriptionId : String) :
    StepOutcome :=
  match alistGet st.subscriptions subscriptionId with
  | none => { state := st }
  | some sub =>
      let ws := alistGet st.wsConnections sub.clientId
      let frames := match ws with
        | some true => [Frame.unsubscribe sub.symbols]
        | _ => []
      let subs' := st.subscriptions.eraseP (fun p => p.1 = subscriptionId)
      let hasMore := subs'.any fun p => p.2.clientId = sub.clientId
      if !hasMore && ws.isSome then
        { state := { st with
            subscriptions := subs',
            wsConnections :=
              st.wsConnections.eraseP (fun p => p.1 = sub.clientId) },
          frames := frames,
          closedClients := [sub.clientId] }
      else
        { state := { st with subscriptions := subs' }, frames := frames }

/-- The socket `close` handler (lines 435-441): drop the socket from the map
and invoke `handleWebSocketReconnection`; when that schedules a retry, the
`setTimeout` callback becomes a `PendingRetry`. -/
def handleSocketClose (cfg : SupervisorConfig) (st : BridgeState)
    (clientId : String) : BridgeState × ReconnectAction :=
  let ws' := st.wsConnections.eraseP (fun p => p.1 = clientId)
  let (m', act) := reconnectStep cfg st.subscriptions st.reconnectAttempts clientId
  let pending' := match act with
    | .scheduleRetry c d cap => st.pendingRetries ++ [⟨c, cap, d⟩]
    | _ => st.pendingRetries
  (⟨ws', st.subscriptions, m', pending'⟩, act)

/-- Outcome of a fired reconnection timer. -/
structure FireOutcome where
  state : BridgeState
  openAttempted : Bool
  frames : List Frame
  supervisorAction : Option ReconnectAction
deriving Repr, DecidableEq

/-- The `setTimeout` callback of `handleWebSocketReconnection`
(lines 556-579), executed when a scheduled retry fires: it always calls
`createWebSocketConnection` (a reopen attempt). On success the open handler
stores the socket and deletes the attempt counter, and the callback replays
a subscribe frame for every captured subscription. On failure the catch
block re-invokes `handleWebSocketReconnection`, which may schedule a new
retry. The fired timer itself leaves `pendingRetries`. -/
def fireRetry (cfg : SupervisorConfig) (st : BridgeState) (r : PendingRetry)
    (res : OpenResult) : FireOutcome :=
  let pending := st.pendingRetries.eraseP (fun p => p = r)
  match res with
  | .success =>
      { state := { st with
          wsConnections := alistSet st.wsConnections r.clientId true,
          reconnectAttempts :=
            st.reconnectAttempts.eraseP (fun p => p.1 = r.clientId),
          pendingRetries := pending },
        openAttempted := true,
        frames := r.captured.map fun s =>
          Frame.subscribe s.symbols (mapStreamToChannels s.stream),
        supervisorAction := none }
  | .failure _ =>
      let (m', act) :=
        reconnectStep cfg st.subscriptions st.reconnectAttempts r.clientId
      let pending' := match act with
        | .scheduleRetry c d cap => pending ++ [⟨c, cap, d⟩]
        | _ => pending
      { state := { st with reconnectAttempts := m', pendingRetries := pending' },
        openAttempted := true,
        frames := [],
        supervisorAction := some act }

/-- `shutdown` (lines 618-651): call `close()` on every stored socket, clear
the connection map, clear the subscription map. No statement of `shutdown`
cancels a scheduled reconnection timer or touches `reconnectAttempts`. -/
def shutdownBridge (st : BridgeState) : StepOutcome :=
  { state := { st with wsConnections := [], subscriptions := [] },
    closedClients := st.wsConnections.map Prod.fst }

/-- A `data-response` payload as emitted by IPCHandler. -/
structure DataResponse where
  success : Bool
  error : Option String
deriving Repr, DecidableEq

/-- The pending-operation sweep of `IPCHandler.cleanup` (lines 761-770):
emit one failure response per pending operationId, then clear the set. -/
def cleanupResponses (pendingOperations : List String) :
    List (String × DataResponse) :=
  pendingOperations.map fun op =>
    (op, ⟨false, some "Application shutting down"⟩)

/-- Interleaving events of concurrent `handleDataSubscribe` calls for the
connection-acquisition step: `check caller cid` is the test at lines 305-307
(`!ws || ws.readyState !== WebSocket.OPEN`) followed, when it fails, by a
call to `createWebSocketConnection`; `openComplete caller cid` is that
caller's socket reaching `open` and being stored (line 409). -/
inductive SubscribeEvent where
  | check (caller : Nat) (clientId : String)
  | openComplete (caller : Nat) (clientId : String)
deriving Repr, DecidableEq

/-- State for the connection-acquisition race: the socket map and the total
number of `createWebSocketConnection` calls made. -/
structure RaceState where
  wsConnections : List (String × Bool)
  openAttempts : Nat
deriving Repr, DecidableEq

/-- One interleaving event. A `check` finding a stored OPEN socket reuses it;
anything else (no entry, which is also the Connecting case, since a socket is
only stored once open) starts a fresh `createWebSocketConnection`. -/
def raceStep (st : RaceState) (e : SubscribeEvent) : RaceState :=
  match e with
  | .check _ cid =>
      match alistGet st.wsConnections cid with
      | some true => st
      | _ => { st with openAttempts := st.openAttempts + 1 }
  | .openComplete _ cid =>
      { st with wsConnections := alistSet st.wsConnections cid true }

/-- Run an interleaving from the empty connection map. -/
def runRace (es : List SubscribeEvent) : RaceState :=
  es.foldl raceStep ⟨[], 0⟩

/-- The per-operation waiter of `IPCHandler.waitForDataResponse`
(lines 722-745): a `once` listener on `data-response-operationId` and an
armed 30s timer. `resolutions` counts how many times the promise is settled. -/
structure Waiter where
  listening : Bool
  timerArmed : Bool
  resolutions : Nat
deriving Repr, DecidableEq

/-- Events that can reach a waiter: its timeout firing, or an emit of its
`data-response` channel (an upstream response, possibly late, or the
`cleanup` sweep). -/
inductive WaiterEvent where
  | timeoutFires
  | responseEmit
deriving Repr, DecidableEq

/-- State as the promise executor creates it: listener registered, timer
armed, promise unsettled. -/
def waiterInit : Waiter := ⟨true, true, 0⟩

/-- Waiter transition. The timeout handler removes the listener and rejects
(lines 725-731); it can only run while the timer is armed. An emit reaches
the handler only while the `once` listener is registered; the handler clears
the timer and resolves (lines 734-743), and `once` deregisters it. -/
def waiterStep (w : Waiter) (e : WaiterEvent) : Waiter :=
  match e with
  | .timeoutFires =>
      if w.timerArmed then ⟨false, false, w.resolutions + 1⟩ else w
  | .responseEmit =>
      if w.listening then ⟨false, false, w.resolutions + 1⟩ else w

/-- Run a waiter event sequence from the initial state. -/
def runWaiter (es : List WaiterEvent) : Waiter :=
  es.foldl waiterStep waiterInit

/-- Fixture for the reconnection-exhaustion claim: one subscription on
clientId window-1. -/
def exSub1 : Subscription := ⟨"window-1", "1", "trades", ["AAPL"]⟩

/-- Fixture subscription for the unsubscribe-vs-retry claim. -/
def exSub2 : Subscription := ⟨"window-2", "2", "quotes", ["TSLA"]⟩

/-- A retry scheduled for window-2, capturing exSub2. -/
def exRetry2 : PendingRetry := ⟨"window-2", [exSub2], 5000⟩

/-- Bridge state while window-2 is Retrying: the socket is gone (it was
deleted by the close handler), exSub2 is still registered, one attempt has
been counted, and the retry timer is pending. -/
def exState2 : BridgeState := ⟨[], [("s2", exSub2)], [("window-2", 1)], [exRetry2]⟩

/-- Fixture subscription for the shutdown claim. -/
def exSub3 : Subscription := ⟨"window-3", "3", "bars", ["MSFT"]⟩

/-- A retry scheduled for window-3 while it is Retrying. -/
def exRetry3 : PendingRetry := ⟨"window-3", [exSub3], 10000⟩

/-- Bridge state at shutdown time: one open connection (window-4), one
subscription on the retrying window-3, and window-3's pending retry timer. -/
def exState3 : BridgeState :=
  ⟨[("window-4", true)], [("s3", exSub3)], [("window-3", 2)], [exRetry3]⟩

/-- Fan-out fixture: a subscription of window-5 on AAPL and TSLA. -/
def exSub5a : Subscription := ⟨"window-5", "5", "trades", ["AAPL", "TSLA"]⟩

/-- Fan-out fixture: a second subscription sharing clientId window-5 whose
symbol set excludes AAPL. -/
def exSub5b : Subscription := ⟨"window-5", "5", "trades", ["MSFT"]⟩

/-- Fan-out fixture registry with both subscriptions. -/
def exSubs5 : List (String × Subscription) := [("s5a", exSub5a), ("s5b", exSub5b)]

/-- Fan-out fixture payload: a single item for AAPL. -/
def exData5 : MarketData := .single ⟨some "AAPL"⟩

/-- Fixture subscription for the reconnection-replay claim. -/
def exSub6 : Subscription := ⟨"window-7", "7", "updates", ["NVDA"]⟩

/-- Bridge state for the replay claim: window-7 open with one subscription. -/
def exState6 : BridgeState := ⟨[("window-7", true)], [("s6", exSub6)], [], []⟩

/-- Fixture registry for the backoff-delay witness. -/
def exSubs7 : List (String × Subscription) :=
  [("s7", ⟨"window-8", "8", "trades", ["SPY"]⟩)]

/-- Fixture state for the unknown-subscriptionId unsubscribe claim. -/
def exState10 : BridgeState :=
  ⟨[("window-9", true)], [("s10", ⟨"window-9", "9", "trades", ["AMD"]⟩)], [], []⟩

lemma alistGet_alistSet_self {α : Type} (m : List (String × α)) (k : String)
    (v : α) : alistGet (alistSet m k v) k = some v := by
  induction m with
  | nil => simp [alistGet, alistSet]
  | cons p rest ih =>
      by_cases h : p.1 = k
      · simp [alistGet, alistSet, h]
      · simpa [alistGet, alistSet, h] using ih

lemma reconnectStep_skip (cfg : SupervisorConfig)
    (subs : List (String × Subscription)) (m : List (String × Nat))
    (cid : String) (h : (activeSubscriptionsFor subs cid).isEmpty = true) :
    reconnectStep cfg subs m cid = (m, .skip) := by
  simp [reconnectStep, h]

lemma reconnectStep_retry (cfg : SupervisorConfig)
    (subs : List (String × Subscription)) (m : List (String × Nat))
    (cid : String) (j : Nat)
    (hact : (activeSubscriptionsFor subs cid).isEmpty = false)
    (hm : (alistGet m cid).getD 0 = j)
    (hle : j + 1 ≤ cfg.maxReconnectAttempts) :
    reconnectStep cfg subs m cid =
      (alistSet m cid (j + 1),
        .scheduleRetry cid (min (cfg.reconnectInterval * (j + 1)) 30000)
          (activeSubscriptionsFor subs cid)) := by
  simp [reconnectStep, hact, hm, Nat.not_lt.mpr hle]

lemma reconnectStep_failed (cfg : SupervisorConfig)
    (subs : List (String × Subscription)) (m : List (String × Nat))
    (cid : String) (j : Nat)
    (hact : (activeSubscriptionsFor subs cid).isEmpty = false)
    (hm : (alistGet m cid).getD 0 = j)
    (hgt : cfg.maxReconnectAttempts < j + 1) :
    reconnectStep cfg subs m cid =
      (alistSet m cid (j + 1), .emitFailed cid (j + 1)) := by
  simp [reconnectStep, hact, hm, hgt]

lemma alistGet_single {α : Type} (k : String) (v : α) :
    alistGet [(k, v)] k = some v := by
  simp [alistGet]

lemma alistSet_single {α : Type} (k : String) (v w : α) :
    alistSet [(k, v)] k w = [(k, w)] := by
  simp [alistSet]

lemma superviseOnce_schedule (cfg : SupervisorConfig)
    (subs : List (String × Subscription)) (cid : String)
    (m : List (String × Nat)) (t : Nat) (e : List Nat) (j : Nat)
    (hact : (activeSubscriptionsFor subs cid).isEmpty = false)
    (hm : (alistGet m cid).getD 0 = j)
    (hle : j + 1 ≤ cfg.maxReconnectAttempts) :
    superviseOnce cfg subs cid ⟨m, t, e⟩ =
      ⟨alistSet m cid (j + 1), t + 1, e⟩ := by
  unfold superviseOnce
  rw [reconnectStep_retry cfg subs m cid j hact hm hle]

lemma superviseOnce_emit (cfg : SupervisorConfig)
    (subs : List (String × Subscription)) (cid : String)
    (m : List (String × Nat)) (t : Nat) (e : List Nat) (j : Nat)
    (hact : (activeSubscriptionsFor subs cid).isEmpty = false)
    (hm : (alistGet m cid).getD 0 = j)
    (hgt : cfg.maxReconnectAttempts < j + 1) :
    superviseOnce cfg subs cid ⟨m, t, e⟩ =
      ⟨alistSet m cid (j + 1), t, e ++ [j + 1]⟩ := by
  unfold superviseOnce
  rw [reconnectStep_failed cfg subs m cid j hact hm hgt]

lemma failedAttemptFires_sched_sched (cfg : SupervisorConfig)
    (subs : List (String × Subscription)) (cid : String)
    (c t : Nat) (e : List Nat)
    (hact : (activeSubscriptionsFor subs cid).isEmpty = false)
    (h2 : c + 2 ≤ cfg.maxReconnectAttempts) :
    failedAttemptFires cfg subs cid ⟨[(cid, c)], t + 1, e⟩ =
      ⟨[(cid, c + 2)], t + 2, e⟩ := by
  unfold failedAttemptFires
  have g1 : (alistGet [(cid, c)] cid).getD 0 = c := by
    rw [alistGet_single]; rfl
  rw [show ({ (⟨[(cid, c)], t + 1, e⟩ : CascadeState) with
      liveTimers := t + 1 - 1 } : CascadeState) = ⟨[(cid, c)], t, e⟩ from rfl]
  rw [superviseOnce_schedule cfg subs cid [(cid, c)] t e c hact g1 (by omega)]
  rw [alistSet_single]
  have g2 : (alistGet [(cid, c + 1)] cid).getD 0 = c + 1 := by
    rw [alistGet_single]; rfl
  rw [superviseOnce_schedule cfg subs cid [(cid, c + 1)] (t + 1) e (c + 1)
    hact g2 (by omega)]
  rw [alistSet_single]

lemma failedAttemptFires_sched_emit (cfg : SupervisorConfig)
    (subs : List (String × Subscription)) (cid : String)
    (c t : Nat) (e : List Nat)
    (hact : (activeSubscriptionsFor subs cid).isEmpty = false)
    (h1 : c + 1 ≤ cfg.maxReconnectAttempts)
    (h2 : cfg.maxReconnectAttempts < c + 2) :
    failedAttemptFires cfg subs cid ⟨[(cid, c)], t + 1, e⟩ =
      ⟨[(cid, c + 2)], t + 1, e ++ [c + 2]⟩ := by
  unfold failedAttemptFires
  have g1 : (alistGet [(cid, c)] cid).getD 0 = c := by
    rw [alistGet_single]; rfl
  rw [show ({ (⟨[(cid, c)], t + 1, e⟩ : CascadeState) with
      liveTimers := t + 1 - 1 } : CascadeState) = ⟨[(cid, c)], t, e⟩ from rfl]
  rw [superviseOnce_schedule cfg subs cid [(cid, c)] t e c hact g1 h1]
  rw [alistSet_single]
  have g2 : (alistGet [(cid, c + 1)] cid).getD 0 = c + 1 := by
    rw [alistGet_single]; rfl
  rw [superviseOnce_emit cfg subs cid [(cid, c + 1)] (t + 1) e (c + 1)
    hact g2 (by omega)]
  rw [alistSet_single]

lemma failedAttemptFires_emit_emit (cfg : SupervisorConfig)
    (subs : List (String × Subscription)) (cid : String)
    (c t : Nat) (e : List Nat)
    (hact : (activeSubscriptionsFor subs cid).isEmpty = false)
    (h1 : cfg.maxReconnectAttempts < c + 1) :
    failedAttemptFires cfg subs cid ⟨[(cid, c)], t + 1, e⟩ =
      ⟨[(cid, c + 2)], t, e ++ [c + 1, c + 2]⟩ := by
  unfold failedAttemptFires
  have g1 : (alistGet [(cid, c)] cid).getD 0 = c := by
    rw [alistGet_single]; rfl
  rw [show ({ (⟨[(cid, c)], t + 1, e⟩ : CascadeState) with
      liveTimers := t + 1 - 1 } : CascadeState) = ⟨[(cid, c)], t, e⟩ from rfl]
  rw [superviseOnce_emit cfg subs cid [(cid, c)] t e c hact g1 h1]
  rw [alistSet_single]
  have g2 : (alistGet [(cid, c + 1)] cid).getD 0 = c + 1 := by
    rw [alistGet_single]; rfl
  rw [superviseOnce_emit cfg subs cid [(cid, c + 1)] t (e ++ [c + 1]) (c + 1)
    hact g2 (by omega)]
  rw [alistSet_single, List.append_assoc]
  rfl

lemma runCascade_stop (cfg : SupervisorConfig)
    (subs : List (String × Subscription)) (cid : String) (fuel : Nat)
    (st : CascadeState) (h : st.liveTimers = 0) :
    runCascade cfg subs cid fuel st = st := by
  cases fuel <;> simp [runCascade, h]

lemma runCascade_fire (cfg : SupervisorConfig)
    (subs : List (String × Subscription)) (cid : String) (fuel : Nat)
    (st : CascadeState) (h : st.liveTimers ≠ 0) :
    runCascade cfg subs cid (fuel + 1) st =
      runCascade cfg subs cid fuel (failedAttemptFires cfg subs cid st) := by
  simp [runCascade, h]

lemma forwardMarketData_cons (k : String) (s : Subscription)
    (rest : List (String × Subscription)) (cid : String) (d : MarketData) :
    forwardMarketData ((k, s) :: rest) cid d =
      (if s.clientId = cid ∧ dataMatchesSubscription d s = true then
        [⟨s.windowId, k, s.stream, d⟩] else []) ++
      forwardMarketData rest cid d := by
  by_cases h1 : s.clientId = cid
  · by_cases h2 : dataMatchesSubscription d s = true
    · simp [forwardMarketData, h1, h2]
    · simp [forwardMarketData, h1, h2]
  · simp [forwardMarketData, h1]

lemma forwardMarketData_filter_of_not_mem (subs : List (String × Subscription))
    (cid : String) (d : MarketData) (sid : String)
    (h : sid ∉ subs.map Prod.fst) :
    (forwardMarketData subs cid d).filter (fun e => e.subscriptionId = sid) =
      [] := by
  induction subs with
  | nil => simp [forwardMarketData]
  | cons p rest ih =>
      obtain ⟨k, s⟩ := p
      simp only [List.map_cons, List.mem_cons, not_or] at h
      obtain ⟨hks, hrest⟩ := h
      rw [forwardMarketData_cons, List.filter_append, ih hrest]
      by_cases h1 : s.clientId = cid ∧ dataMatchesSubscription d s = true
      · have hksid : ¬k = sid := fun he => hks he.symm
        simp only [if_pos h1]
        simp [hksid]
      · simp [if_neg h1]

lemma waiter_states (es : List WaiterEvent) (w : Waiter)
    (h : w = waiterInit ∨ w = ⟨false, false, 1⟩) :
    es.foldl waiterStep w = waiterInit ∨
      es.foldl waiterStep w = ⟨false, false, 1⟩ := by
  induction es generalizing w with
  | nil => simpa using h
  | cons e rest ih =>
      apply ih
      rcases h with h | h <;> subst h <;> cases e <;> simp [waiterStep, waiterInit]

/-- C7: for every reconnection attempt number k with 1 ≤ k up to the attempt
cap, the supervisor schedules the retry after min(reconnectInterval * k,
30000) ms; the default interval resolves to 5000, giving min(5000 * k,
30000) — linear growth with a hard cap. -/
theorem backoff_delay_linear_capped (b M : Nat)
    (subs : List (String × Subscription)) (m : List (String × Nat))
    (cid : String) (k : Nat)
    (hact : (activeSubscriptionsFor subs cid).isEmpty = false)
    (hm : (alistGet m cid).getD 0 + 1 = k) (hk : k ≤ M) :
    (reconnectStep ⟨b, M⟩ subs m cid).2 =
      ReconnectAction.scheduleRetry cid (min (b * k) 30000)
        (activeSubscriptionsFor subs cid) ∧
    resolveReconnectInterval none = 5000 ∧
    (reconnectStep ⟨5000, M⟩ subs m cid).2 =
      ReconnectAction.scheduleRetry cid (min (5000 * k) 30000)
        (activeSubscriptionsFor subs cid) := by
  subst hm
  refine ⟨?_, rfl, ?_⟩
  · rw [reconnectStep_retry ⟨b, M⟩ subs m cid _ hact rfl hk]
  · rw [reconnectStep_retry ⟨5000, M⟩ subs m cid _ hact rfl hk]

/-- Witness for backoff_delay_linear_capped: attempt 7 on window-8 with the
default configuration is scheduled after min(5000 * 7, 30000) = 30000 ms. -/
theorem backoff_delay_linear_capped_witness :
    (reconnectStep ⟨5000, 10⟩ exSubs7 [("window-8", 6)] "window-8").2 =
      ReconnectAction.scheduleRetry "window-8" (min (5000 * 7) 30000)
        (activeSubscriptionsFor exSubs7 "window-8") :=
  (backoff_delay_linear_capped 5000 10 exSubs7 [("window-8", 6)] "window-8" 7
    (by decide) (by decide) (by decide)).1

/-- C8: a one-shot request's waiter settles exactly once: over any sequence
of timeout/emit events (late upstream responses and the cleanup sweep
included) at most one resolution occurs, and on any complete execution (the
30s timer has either fired or been cleared) exactly one occurs. -/
theorem request_single_resolution (es : List WaiterEvent) :
    (runWaiter es).resolutions ≤ 1 ∧
      ((runWaiter es).timerArmed = false → (runWaiter es).resolutions = 1) := by
  rcases waiter_states es waiterInit (Or.inl rfl) with h | h <;>
    simp only [runWaiter, h] <;> simp [waiterInit]

/-- Witness for request_single_resolution: the trace where the timeout fires
is complete and yields exactly one resolution. -/
theorem request_single_resolution_witness :
    (runWaiter [WaiterEvent.timeoutFires]).timerArmed = false ∧
    (runWaiter [WaiterEvent.timeoutFires]).resolutions = 1 :=
  ⟨by decide, (request_single_resolution [WaiterEvent.timeoutFires]).2 (by decide)⟩

/-- C10: unsubscribing a subscriptionId absent from the registry is a
no-op: no frame is sent, no socket is closed, and the bridge state (both
maps included) is unchanged. -/
theorem unsubscribe_unknown_noop (st : BridgeState) (sid : String)
    (h : alistGet st.subscriptions sid = none) :
    handleDataUnsubscribe st sid = { state := st } := by
  unfold handleDataUnsubscribe
  rw [h]

/-- Witness for unsubscribe_unknown_noop on a state holding an unrelated
subscription and an open connection. -/
theorem unsubscribe_unknown_noop_witness :
    alistGet exState10.subscriptions "missing" = none ∧
    handleDataUnsubscribe exState10 "missing" = { state := exState10 } :=
  ⟨by decide, unsubscribe_unknown_noop exState10 "missing" (by decide)⟩

/-- C9: when no open connection exists for the window's clientId and the
socket open fails, handleDataSubscribe emits exactly one subscription-error
event carrying the subscriptionId and the error, sends no frame, and leaves
the whole bridge state — the subscription map included — unchanged. -/
theorem subscribe_failure_emits_error_only (st : BridgeState)
    (sid wid stream : String) (symbols : List String) (msg : String)
    (hno : alistGet st.wsConnections ("window-" ++ wid) ≠ some true) :
    (handleDataSubscribe st sid wid stream symbols
      (OpenResult.failure msg)).state = st ∧
    (handleDataSubscribe st sid wid stream symbols
      (OpenResult.failure msg)).state.subscriptions = st.subscriptions ∧
    (handleDataSubscribe st sid wid stream symbols
      (OpenResult.failure msg)).frames = [] ∧
    (handleDataSubscribe st sid wid stream symbols
      (OpenResult.failure msg)).events =
      [BridgeEvent.subscriptionError sid msg] := by
  unfold handleDataSubscribe
  cases h : alistGet st.wsConnections ("window-" ++ wid) with
  | none => simp
  | some b =>
      cases b with
      | false => simp
      | true => exact absurd h hno

/-- Witness for subscribe_failure_emits_error_only: a failed connect on an
empty bridge emits the error event and records nothing. -/
theorem subscribe_failure_emits_error_only_witness :
    alistGet (BridgeState.mk [] [] [] []).wsConnections ("window-" ++ "9") ≠
      some true ∧
    (handleDataSubscribe ⟨[], [], [], []⟩ "s9" "9" "trades" ["AMD"]
      (OpenResult.failure "connect timeout")).events =
      [BridgeEvent.subscriptionError "s9" "connect timeout"] :=
  ⟨by decide, (subscribe_failure_emits_error_only ⟨[], [], [], []⟩ "s9" "9"
    "trades" ["AMD"] "connect timeout" (by decide)).2.2.2⟩

/-- C4 counterexample: two subscribe calls for the same clientKey, both
checking the connection map before either socket reaches open (the map only
stores a socket in the open handler), each start their own
createWebSocketConnection — two open attempts, not exactly one. -/
theorem concurrent_subscribe_two_opens_counterexample :
    (runRace [SubscribeEvent.check 1 "window-1",
      SubscribeEvent.check 2 "window-1"]).openAttempts = 2 ∧
    (runRace [SubscribeEvent.check 1 "window-1",
      SubscribeEvent.check 2 "window-1"]).openAttempts ≠ 1 := by
  decide

/-- C4 amended: a subscribe call reuses the stored connection only when it
is already OPEN; while a previous open is still in flight (no entry stored
yet) a later subscribe starts its own open attempt, so two concurrent
subscribes sharing a clientKey cause two socket opens, whereas a subscribe
arriving after the open completed causes none. -/
theorem subscribe_open_reuse_only_when_open :
    (∀ (st : RaceState) (c : Nat) (cid : String),
      alistGet st.wsConnections cid = some true →
        raceStep st (SubscribeEvent.check c cid) = st) ∧
    (∀ (st : RaceState) (c : Nat) (cid : String),
      alistGet st.wsConnections cid = none →
        (raceStep st (SubscribeEvent.check c cid)).openAttempts =
          st.openAttempts + 1) ∧
    (runRace [SubscribeEvent.check 1 "window-1",
      SubscribeEvent.openComplete 1 "window-1",
      SubscribeEvent.check 2 "window-1"]).openAttempts = 1 ∧
    (runRace [SubscribeEvent.check 1 "window-1",
      SubscribeEvent.check 2 "window-1"]).openAttempts = 2 := by
  refine ⟨?_, ?_, by decide, by decide⟩
  · intro st c cid h
    simp [raceStep, h]
  · intro st c cid h
    simp [raceStep, h]

/-- Witness for subscribe_open_reuse_only_when_open: a check against a
stored OPEN connection leaves the race state unchanged. -/
theorem subscribe_open_reuse_only_when_open_witness :
    alistGet (RaceState.mk [("window-1", true)] 1).wsConnections "window-1" =
      some true ∧
    raceStep ⟨[("window-1", true)], 1⟩ (SubscribeEvent.check 3 "window-1") =
      ⟨[("window-1", true)], 1⟩ :=
  ⟨by decide, subscribe_open_reuse_only_when_open.1 ⟨[("window-1", true)], 1⟩
    3 "window-1" (by decide)⟩

/-- C1 counterexample: with the default cap of 10 and a fresh counter for
window-1, the complete all-failures cascade (one supervisor invocation at
the unexpected close, then two per failed reopen — close handler and
promise catch) ends with no live timer, eleven reconnection-failed events
carrying attempts 11 through 21, no event carrying attempts = 10, and an
emission count different from one. -/
theorem reconnection_failed_attempts_counterexample :
    (cascadeFromClose ⟨5000, 10⟩ [("s1", exSub1)] "window-1" [] 20).emitted =
      [11, 12, 13, 14, 15, 16, 17, 18, 19, 20, 21] ∧
    (cascadeFromClose ⟨5000, 10⟩ [("s1", exSub1)] "window-1" [] 20).liveTimers
      = 0 ∧
    (10 : Nat) ∉
      (cascadeFromClose ⟨5000, 10⟩ [("s1", exSub1)] "window-1" [] 20).emitted ∧
    (cascadeFromClose ⟨5000, 10⟩ [("s1", exSub1)] "window-1"
      [] 20).emitted.length ≠ 1 := by
  decide

/-- C1 amended: a supervisor invocation whose incremented counter exceeds
maxReconnectAttempts (default 10) emits reconnection-failed carrying the
incremented counter — strictly above 10, so never 10 — and schedules no
retry itself; but the terminal event is not unique: each failed reopen
invokes the supervisor twice (socket close handler and promise catch), so
the complete all-failures cascade from a fresh counter emits eleven
reconnection-failed events carrying attempts 11 through 21 and ends with no
live timer. -/
theorem reconnection_exhaustion_terminal (subs : List (String × Subscription))
    (cid : String) (m : List (String × Nat)) (j : Nat)
    (hact : (activeSubscriptionsFor subs cid).isEmpty = false)
    (hm : (alistGet m cid).getD 0 = j) (hj : 10 ≤ j) :
    (reconnectStep ⟨5000, 10⟩ subs m cid).2 =
      ReconnectAction.emitFailed cid (j + 1) ∧
    10 < j + 1 ∧
    cascadeFromClose ⟨5000, 10⟩ subs cid [] 20 =
      ⟨[(cid, 21)], 0, [11, 12, 13, 14, 15, 16, 17, 18, 19, 20, 21]⟩ ∧
    (10 : Nat) ∉ (cascadeFromClose ⟨5000, 10⟩ subs cid [] 20).emitted ∧
    (cascadeFromClose ⟨5000, 10⟩ subs cid [] 20).emitted.length = 11 := by
  have hcas : cascadeFromClose ⟨5000, 10⟩ subs cid [] 20 =
      ⟨[(cid, 21)], 0, [11, 12, 13, 14, 15, 16, 17, 18, 19, 20, 21]⟩ := by
    unfold cascadeFromClose
    have s0 : superviseOnce ⟨5000, 10⟩ subs cid ⟨[], 0, []⟩ =
        ⟨[(cid, 1)], 1, []⟩ := by
      rw [superviseOnce_schedule ⟨5000, 10⟩ subs cid [] 0 [] 0 hact rfl
        (by norm_num)]
      rfl
    have f1 : failedAttemptFires ⟨5000, 10⟩ subs cid ⟨[(cid, 1)], 1, []⟩ =
        ⟨[(cid, 3)], 2, []⟩ :=
      failedAttemptFires_sched_sched ⟨5000, 10⟩ subs cid 1 0 [] hact
        (by norm_num)
    have f2 : failedAttemptFires ⟨5000, 10⟩ subs cid ⟨[(cid, 3)], 2, []⟩ =
        ⟨[(cid, 5)], 3, []⟩ :=
      failedAttemptFires_sched_sched ⟨5000, 10⟩ subs cid 3 1 [] hact
        (by norm_num)
    have f3 : failedAttemptFires ⟨5000, 10⟩ subs cid ⟨[(cid, 5)], 3, []⟩ =
        ⟨[(cid, 7)], 4, []⟩ :=
      failedAttemptFires_sched_sched ⟨5000, 10⟩ subs cid 5 2 [] hact
        (by norm_num)
    have f4 : failedAttemptFires ⟨5000, 10⟩ subs cid ⟨[(cid, 7)], 4, []⟩ =
        ⟨[(cid, 9)], 5, []⟩ :=
      failedAttemptFires_sched_sched ⟨5000, 10⟩ subs cid 7 3 [] hact
        (by norm_num)
    have f5 : failedAttemptFires ⟨5000, 10⟩ subs cid ⟨[(cid, 9)], 5, []⟩ =
        ⟨[(cid, 11)], 5, [11]⟩ :=
      failedAttemptFires_sched_emit ⟨5000, 10⟩ subs cid 9 4 [] hact
        (by norm_num) (by norm_num)
    have f6 : failedAttemptFires ⟨5000, 10⟩ subs cid ⟨[(cid, 11)], 5, [11]⟩ =
        ⟨[(cid, 13)], 4, [11, 12, 13]⟩ :=
      failedAttemptFires_emit_emit ⟨5000, 10⟩ subs cid 11 4 [11] hact
        (by norm_num)
    have f7 : failedAttemptFires ⟨5000, 10⟩ subs cid
        ⟨[(cid, 13)], 4, [11, 12, 13]⟩ =
        ⟨[(cid, 15)], 3, [11, 12, 13, 14, 15]⟩ :=
      failedAttemptFires_emit_emit ⟨5000, 10⟩ subs cid 13 3 [11, 12, 13] hact
        (by norm_num)
    have f8 : failedAttemptFires ⟨5000, 10⟩ subs cid
        ⟨[(cid, 15)], 3, [11, 12, 13, 14, 15]⟩ =
        ⟨[(cid, 17)], 2, [11, 12, 13, 14, 15, 16, 17]⟩ :=
      failedAttemptFires_emit_emit ⟨5000, 10⟩ subs cid 15 2
        [11, 12, 13, 14, 15] hact (by norm_num)
    have f9 : failedAttemptFires ⟨5000, 10⟩ subs cid
        ⟨[(cid, 17)], 2, [11, 12, 13, 14, 15, 16, 17]⟩ =
        ⟨[(cid, 19)], 1, [11, 12, 13, 14, 15, 16, 17, 18, 19]⟩ :=
      failedAttemptFires_emit_emit ⟨5000, 10⟩ subs cid 17 1
        [11, 12, 13, 14, 15, 16, 17] hact (by norm_num)
    have f10 : failedAttemptFires ⟨5000, 10⟩ subs cid
        ⟨[(cid, 19)], 1, [11, 12, 13, 14, 15, 16, 17, 18, 19]⟩ =
        ⟨[(cid, 21)], 0, [11, 12, 13, 14, 15, 16, 17, 18, 19, 20, 21]⟩ :=
      failedAttemptFires_emit_emit ⟨5000, 10⟩ subs cid 19 0
        [11, 12, 13, 14, 15, 16, 17, 18, 19] hact (by norm_num)
    rw [s0]
    rw [show (20 : Nat) = 19 + 1 from rfl,
      runCascade_fire ⟨5000, 10⟩ subs cid 19 _ (by simp), f1]
    rw [show (19 : Nat) = 18 + 1 from rfl,
      runCascade_fire ⟨5000, 10⟩ subs cid 18 _ (by simp), f2]
    rw [show (18 : Nat) = 17 + 1 from rfl,
      runCascade_fire ⟨5000, 10⟩ subs cid 17 _ (by simp), f3]
    rw [show (17 : Nat) = 16 + 1 from rfl,
      runCascade_fire ⟨5000, 10⟩ subs cid 16 _ (by simp), f4]
    rw [show (16 : Nat) = 15 + 1 from rfl,
      runCascade_fire ⟨5000, 10⟩ subs cid 15 _ (by simp), f5]
    rw [show (15 : Nat) = 14 + 1 from rfl,
      runCascade_fire ⟨5000, 10⟩ subs cid 14 _ (by simp), f6]
    rw [show (14 : Nat) = 13 + 1 from rfl,
      runCascade_fire ⟨5000, 10⟩ subs cid 13 _ (by simp), f7]
    rw [show (13 : Nat) = 12 + 1 from rfl,
      runCascade_fire ⟨5000, 10⟩ subs cid 12 _ (by simp), f8]
    rw [show (12 : Nat) = 11 + 1 from rfl,
      runCascade_fire ⟨5000, 10⟩ subs cid 11 _ (by simp), f9]
    rw [show (11 : Nat) = 10 + 1 from rfl,
      runCascade_fire ⟨5000, 10⟩ subs cid 10 _ (by simp), f10]
    exact runCascade_stop ⟨5000, 10⟩ subs cid 10 _ rfl
  refine ⟨?_, by omega, hcas, ?_, ?_⟩
  · rw [reconnectStep_failed ⟨5000, 10⟩ subs m cid j hact hm
      (show (10 : Nat) < j + 1 by omega)]
  · rw [hcas]
    show (10 : Nat) ∉ [11, 12, 13, 14, 15, 16, 17, 18, 19, 20, 21]
    decide
  · rw [hcas]
    show ([11, 12, 13, 14, 15, 16, 17, 18, 19, 20, 21] : List Nat).length = 11
    decide

/-- Witness for reconnection_exhaustion_terminal: with the counter at 10 on
the window-1 fixture, the next invocation emits attempts = 11, and the
complete cascade emits eleven terminal events. -/
theorem reconnection_exhaustion_terminal_witness :
    (activeSubscriptionsFor [("s1", exSub1)] "window-1").isEmpty = false ∧
    (reconnectStep ⟨5000, 10⟩ [("s1", exSub1)] [("window-1", 10)]
      "window-1").2 = ReconnectAction.emitFailed "window-1" 11 ∧
    (cascadeFromClose ⟨5000, 10⟩ [("s1", exSub1)] "window-1"
      [] 20).emitted.length = 11 := by
  have h := reconnection_exhaustion_terminal [("s1", exSub1)] "window-1"
    [("window-1", 10)] 10 (by decide) (by decide) (by decide)
  exact ⟨by decide, h.1, h.2.2.2.2⟩

/-- C2 counterexample: with window-2 Retrying and s2 its only subscription,
unsubscribing s2 leaves the scheduled retry pending; when it fires it still
performs a reopen attempt and, on success, still sends a resubscribe frame
for the captured subscription. -/
theorem unsubscribe_cancel_counterexample :
    (handleDataUnsubscribe exState2 "s2").state.pendingRetries = [exRetry2] ∧
    (fireRetry ⟨5000, 10⟩ (handleDataUnsubscribe exState2 "s2").state exRetry2
      OpenResult.success).openAttempted = true ∧
    (fireRetry ⟨5000, 10⟩ (handleDataUnsubscribe exState2 "s2").state exRetry2
      OpenResult.success).frames = [Frame.subscribe ["TSLA"] ["Q"]] := by
  decide

/-- C2 amended: an unsubscribe — the one draining the clientKey included —
cancels nothing: the pending retries are exactly those before the call, a
fired retry still attempts the reopen and on success replays the captured
subscriptions; the cycle only dies on the next failure, when the supervisor
finds the key's subscription set empty and schedules nothing. -/
theorem unsubscribe_does_not_cancel_retry (cfg : SupervisorConfig)
    (st : BridgeState) (sid : String) (r : PendingRetry) (msg : String)
    (hdrained : (activeSubscriptionsFor
      (handleDataUnsubscribe st sid).state.subscriptions
      r.clientId).isEmpty = true) :
    (handleDataUnsubscribe st sid).state.pendingRetries = st.pendingRetries ∧
    (fireRetry cfg (handleDataUnsubscribe st sid).state r
      OpenResult.success).openAttempted = true ∧
    (fireRetry cfg (handleDataUnsubscribe st sid).state r
      OpenResult.success).frames =
      r.captured.map
        (fun s => Frame.subscribe s.symbols (mapStreamToChannels s.stream)) ∧
    (fireRetry cfg (handleDataUnsubscribe st sid).state r
      (OpenResult.failure msg)).supervisorAction =
      some ReconnectAction.skip := by
  refine ⟨?_, rfl, rfl, ?_⟩
  · unfold handleDataUnsubscribe
    cases alistGet st.subscriptions sid with
    | none => rfl
    | some sub =>
        dsimp only
        split <;> rfl
  · unfold fireRetry
    rw [reconnectStep_skip cfg _ _ _ hdrained]

/-- Witness for unsubscribe_does_not_cancel_retry on the window-2 fixture. -/
theorem unsubscribe_does_not_cancel_retry_witness :
    (activeSubscriptionsFor
      (handleDataUnsubscribe exState2 "s2").state.subscriptions
      exRetry2.clientId).isEmpty = true ∧
    (handleDataUnsubscribe exState2 "s2").state.pendingRetries =
      exState2.pendingRetries :=
  ⟨by decide, (unsubscribe_does_not_cancel_retry ⟨5000, 10⟩ exState2 "s2"
    exRetry2 "boom" (by decide)).1⟩

/-- C3 counterexample: after shutdown of a state with a scheduled retry for
window-3, the retry is still pending; firing it performs a reopen attempt
and even stores a fresh connection in the supposedly shut-down bridge. -/
theorem shutdown_timer_counterexample :
    (shutdownBridge exState3).state.pendingRetries = [exRetry3] ∧
    (fireRetry ⟨5000, 10⟩ (shutdownBridge exState3).state exRetry3
      OpenResult.success).openAttempted = true ∧
    (fireRetry ⟨5000, 10⟩ (shutdownBridge exState3).state exRetry3
      OpenResult.success).state.wsConnections = [("window-3", true)] := by
  decide

/-- C3 amended: shutdown calls close on every stored connection and empties
the connection and subscription maps, and the IPC cleanup sweep emits
exactly one shutting-down failure response per pending operation; but no
Reconnection Supervisor timer is cancelled: every scheduled retry survives
shutdown and, when it fires, still performs a reopen attempt. -/
theorem shutdown_closes_all_but_cancels_no_timers (cfg : SupervisorConfig)
    (st : BridgeState) (pend : List String) (r : PendingRetry)
    (res : OpenResult) (hr : r ∈ st.pendingRetries) :
    (shutdownBridge st).state.wsConnections = [] ∧
    (shutdownBridge st).state.subscriptions = [] ∧
    (shutdownBridge st).closedClients = st.wsConnections.map Prod.fst ∧
    (cleanupResponses pend).map Prod.fst = pend ∧
    (∀ q ∈ cleanupResponses pend,
      q.2 = ⟨false, some "Application shutting down"⟩) ∧
    r ∈ (shutdownBridge st).state.pendingRetries ∧
    (fireRetry cfg (shutdownBridge st).state r res).openAttempted = true := by
  refine ⟨rfl, rfl, rfl, ?_, ?_, hr, ?_⟩
  · simp [cleanupResponses, Function.comp_def]
  · simp [cleanupResponses]
  · cases res <;> rfl

/-- Witness for shutdown_closes_all_but_cancels_no_timers on the window-3
fixture. -/
theorem shutdown_closes_all_but_cancels_no_timers_witness :
    exRetry3 ∈ exState3.pendingRetries ∧
    exRetry3 ∈ (shutdownBridge exState3).state.pendingRetries ∧
    (fireRetry ⟨5000, 10⟩ (shutdownBridge exState3).state exRetry3
      OpenResult.success).openAttempted = true := by
  have h := shutdown_closes_all_but_cancels_no_timers ⟨5000, 10⟩ exState3
    ["op-1"] exRetry3 OpenResult.success (by decide)
  exact ⟨by decide, h.2.2.2.2.2.1, h.2.2.2.2.2.2⟩

/-- C5: in a registry with distinct subscriptionIds, an inbound market_data
payload on a clientKey produces exactly one market-data event — carrying
that subscription's windowId, subscriptionId, stream and the payload — for
each subscription that shares the clientKey and matches the payload's
symbol (or, for a batch, some item's symbol), and no event for any other
subscription. -/
theorem market_data_fanout_exact (subs : List (String × Subscription))
    (cid : String) (d : MarketData) (sid : String) (sub : Subscription)
    (hnd : (subs.map Prod.fst).Nodup) (hmem : (sid, sub) ∈ subs) :
    (forwardMarketData subs cid d).filter (fun e => e.subscriptionId = sid) =
      (if sub.clientId = cid ∧ dataMatchesSubscription d sub = true then
        [⟨sub.windowId, sid, sub.stream, d⟩] else []) := by
  induction subs with
  | nil => cases hmem
  | cons p rest ih =>
      obtain ⟨k, s⟩ := p
      simp only [List.map_cons, List.nodup_cons] at hnd
      obtain ⟨hknotin, hndrest⟩ := hnd
      rw [forwardMarketData_cons, List.filter_append]
      rcases List.mem_cons.mp hmem with heq | hmemrest
      · rw [Prod.mk.injEq] at heq
        obtain ⟨hk, hs⟩ := heq
        subst hk
        subst hs
        rw [forwardMarketData_filter_of_not_mem rest cid d sid hknotin]
        by_cases hc : sub.clientId = cid ∧ dataMatchesSubscription d sub = true
        · simp [hc]
        · simp [hc]
      · have hksid : ¬(k = sid) := by
          intro he
          subst he
          exact hknotin (List.mem_map_of_mem Prod.fst hmemrest)
        rw [ih hndrest hmemrest]
        by_cases hc : s.clientId = cid ∧ dataMatchesSubscription d s = true
        · simp [hc, hksid]
        · simp [hc]

/-- Witness for market_data_fanout_exact: an AAPL payload on window-5
reaches the subscription whose symbol set holds AAPL exactly once. -/
theorem market_data_fanout_exact_witness :
    (exSubs5.map Prod.fst).Nodup ∧
    (forwardMarketData exSubs5 "window-5" exData5).filter
      (fun e => e.subscriptionId = "s5a") =
      [⟨exSub5a.windowId, "s5a", exSub5a.stream, exData5⟩] := by
  have h := market_data_fanout_exact exSubs5 "window-5" exData5 "s5a" exSub5a
    (by decide) (by decide)
  refine ⟨by decide, ?_⟩
  rw [h]
  decide

/-- C6: an unexpected close with a non-empty subscription set for the
clientKey schedules a retry capturing exactly the subscriptions active at
close time; when that retry fires and the reopen succeeds, a fresh
subscribe frame carrying the subscription's symbols and its stream's
channels is sent for every captured subscription. -/
theorem reconnect_replays_active_subscriptions (cfg : SupervisorConfig)
    (st : BridgeState) (cid : String)
    (hact : (activeSubscriptionsFor st.subscriptions cid).isEmpty = false)
    (hfresh : alistGet st.reconnectAttempts cid = none)
    (hmax : 1 ≤ cfg.maxReconnectAttempts) :
    (handleSocketClose cfg st cid).2 =
      ReconnectAction.scheduleRetry cid
        (min (cfg.reconnectInterval * 1) 30000)
        (activeSubscriptionsFor st.subscriptions cid) ∧
    (⟨cid, activeSubscriptionsFor st.subscriptions cid,
      min (cfg.reconnectInterval * 1) 30000⟩ : PendingRetry) ∈
      (handleSocketClose cfg st cid).1.pendingRetries ∧
    (fireRetry cfg (handleSocketClose cfg st cid).1
      ⟨cid, activeSubscriptionsFor st.subscriptions cid,
        min (cfg.reconnectInterval * 1) 30000⟩ OpenResult.success).frames =
      (activeSubscriptionsFor st.subscriptions cid).map
        (fun s => Frame.subscribe s.symbols (mapStreamToChannels s.stream)) ∧
    (∀ s ∈ activeSubscriptionsFor st.subscriptions cid,
      Frame.subscribe s.symbols (mapStreamToChannels s.stream) ∈
        (fireRetry cfg (handleSocketClose cfg st cid).1
          ⟨cid, activeSubscriptionsFor st.subscriptions cid,
            min (cfg.reconnectInterval * 1) 30000⟩
          OpenResult.success).frames) := by
  have hstep := reconnectStep_retry cfg st.subscriptions st.reconnectAttempts
    cid 0 hact (by simp [hfresh]) (by omega)
  refine ⟨?_, ?_, rfl, ?_⟩
  · simp [handleSocketClose, hstep]
  · simp [handleSocketClose, hstep]
  · intro s hs
    exact List.mem_map_of_mem _ hs

/-- Witness for reconnect_replays_active_subscriptions on the window-7
fixture. -/
theorem reconnect_replays_active_subscriptions_witness :
    (activeSubscriptionsFor exState6.subscriptions "window-7").isEmpty =
      false ∧
    (fireRetry ⟨5000, 10⟩ (handleSocketClose ⟨5000, 10⟩ exState6 "window-7").1
      ⟨"window-7", activeSubscriptionsFor exState6.subscriptions "window-7",
        min (5000 * 1) 30000⟩ OpenResult.success).frames =
      (activeSubscriptionsFor exState6.subscriptions "window-7").map
        (fun s => Frame.subscribe s.symbols (mapStreamToChannels s.stream)) :=
  ⟨by decide, (reconnect_replays_active_subscriptions ⟨5000, 10⟩ exState6
    "window-7" (by decide) (by decide) (by decide)).2.2.1⟩

end Alpha
